import Mathlib

/-
Verification of the detection execution engine of the okta-security-healthcheck
repository: the paginated query client (src/oktaClient.js), the rule loader
(src/detectionLoader.js, two-source variant), and the sequential execution
coordinator (src/detectionRunner.js).

Modelling conventions: machine integers are Int/Nat; JS exceptions are Except
values; the HTTP transport is a pure list of per-request responses (the k-th
request made by the pagination loop receives the k-th entry); log events are an
arbitrary type parameter, since the code treats them as opaque records.  The
model additionally returns ghost observables (request count, sleep count,
cache-write content, remote-call count) that mirror the side effects of the
source line by line.
-/

/-! ### Okta query client (src/oktaClient.js) -/

/-- One page served by the log endpoint: the JSON array body (response.data)
and whether the response carries a parseable link header marked rel="next". -/
structure Page (Event : Type) where
  data : List Event
  hasNext : Bool
  deriving DecidableEq

/-- The shape of an axios failure, as discriminated by the catch block of
querySystemLog: a non-success HTTP response (error.response, with status,
optional errorSummary field of the body, and statusText), a request that got
no response at all (error.request), or any other failure. -/
inductive AxiosError where
  | response (status : Nat) (errorSummary : Option String) (statusText : String)
  | request
  | other (msg : String)
  deriving DecidableEq

/-- What querySystemLog throws: either a freshly constructed Error message
(new Error(...)), or the original error rethrown unchanged. -/
inductive ThrownError where
  | wrapped (msg : String)
  | original (e : AxiosError)
  deriving DecidableEq

/-- The catch block of querySystemLog (src/oktaClient.js lines 60-68). -/
def normalizeError : AxiosError → ThrownError
  | AxiosError.response status errorSummary statusText =>
      ThrownError.wrapped
        ("Okta API Error: " ++ toString status ++ " - " ++ errorSummary.getD statusText)
  | AxiosError.request => ThrownError.wrapped "Network error: Unable to reach Okta API"
  | AxiosError.other msg => ThrownError.original (AxiosError.other msg)

/-- The while loop of querySystemLog (src/oktaClient.js lines 35-57), with the
transport given as the list of responses to successive requests.  Returns the
accumulated results (or the first request error), the number of HTTP requests
issued, and the number of pacing sleeps awaited.  Each completed loop
iteration issues one request and then awaits one sleep; a request that throws
skips the sleep of its iteration and aborts the loop. -/
def querySystemLogLoop {Event : Type} (limit : Int) :
    List (Except AxiosError (Page Event)) → List Event →
      Except AxiosError (List Event) × Nat × Nat
  | [], acc => (Except.ok acc, 0, 0)
  | r :: rest, acc =>
      if (acc.length : Int) < limit then
        match r with
        | Except.error e => (Except.error e, 1, 0)
        | Except.ok p =>
            if p.hasNext then
              let out := querySystemLogLoop limit rest (acc ++ p.data)
              (out.1, out.2.1 + 1, out.2.2 + 1)
            else (Except.ok (acc ++ p.data), 1, 1)
      else (Except.ok acc, 0, 0)

/-- querySystemLog (src/oktaClient.js lines 19-69): run the pagination loop
starting from an empty accumulator, truncate the result to the first `limit`
events, and normalize any caught error. -/
def querySystemLog {Event : Type} (limit : Int)
    (responses : List (Except AxiosError (Page Event))) :
    Except ThrownError (List Event) × Nat × Nat :=
  match querySystemLogLoop limit responses [] with
  | (Except.ok results, reqs, sleeps) => (Except.ok (results.take limit.toNat), reqs, sleeps)
  | (Except.error e, reqs, sleeps) => (Except.error (normalizeError e), reqs, sleeps)

/-- A well-formed pagination scenario of N pages: every page before the last
carries a next link and the last page carries none. -/
def pageChain {Event : Type} : List (Page Event) → Bool
  | [] => false
  | [p] => !p.hasNext
  | p :: q :: rest => p.hasNext && pageChain (q :: rest)

/-- Concrete two-page chain used by the C3 witness. -/
def pagesW3 : List (Page Nat) :=
  [{ data := [1, 2], hasNext := true }, { data := [3, 4], hasNext := false }]

/-- Concrete two-page chain used by the C5 witness. -/
def pagesW5 : List (Page Nat) :=
  [{ data := [7], hasNext := true }, { data := [8], hasNext := false }]

/-! ### Rule descriptors and the detection runner (src/detectionRunner.js) -/

/-- A rule descriptor as built by the loader: the parsed YAML document fields
the engine reads, plus the metadata the loader attaches (filename, sourceType,
queryType, query).  The threat and false_positives payloads are opaque to the
engine and modelled as strings. -/
structure Detection where
  title : String
  description : String
  threat : String
  false_positives : String
  filename : String
  sourceType : String
  queryType : String
  query : String
  deriving DecidableEq

/-- One rule result record as pushed into detectionResults: the descriptor
fields, the matched events, and the error message, present exactly on the
failure path. -/
structure DetectionResult (Event : Type) where
  title : String
  description : String
  threat : String
  false_positives : String
  events : List Event
  error : Option String
  deriving DecidableEq

/-- runDetectionWithEvents (src/detectionRunner.js lines 75-140): execute the
query of the descriptor through the client and return the result record with
the matched events; a query failure propagates.  The client argument stands
for querySystemLog with the configured since-bound and per-rule limit already
applied, keyed by the query string the code passes. -/
def runDetectionWithEvents {Event : Type} (client : String → Except String (List Event))
    (d : Detection) : Except String (DetectionResult Event) :=
  match client d.query with
  | Except.ok events =>
      Except.ok { title := d.title, description := d.description, threat := d.threat,
                  false_positives := d.false_positives, events := events, error := none }
  | Except.error e => Except.error e

/-- runDetection (src/detectionRunner.js lines 142-145): the single-rule path;
it returns the length of the events of the result, and propagates the query
error. -/
def runDetection {Event : Type} (client : String → Except String (List Event))
    (d : Detection) : Except String Nat :=
  match runDetectionWithEvents client d with
  | Except.ok r => Except.ok r.events.length
  | Except.error e => Except.error e

/-- The aggregate summary built by runAllDetections (src/detectionRunner.js
lines 19-26). -/
structure RunSummary (Event : Type) where
  total : Nat
  success : Nat
  failed : Nat
  withFindings : Nat
  totalFindings : Nat
  detectionResults : List (DetectionResult Event)
  deriving DecidableEq

/-- One iteration of the loop of runAllDetections (src/detectionRunner.js
lines 28-57): on success bump success, append the result, and update the
findings counters when events is non-empty; on failure bump failed and append
a record with empty events and the error message. -/
def detectionStep {Event : Type} (client : String → Except String (List Event))
    (acc : RunSummary Event) (d : Detection) : RunSummary Event :=
  match runDetectionWithEvents client d with
  | Except.ok r =>
      { acc with
        success := acc.success + 1,
        withFindings := if 0 < r.events.length then acc.withFindings + 1 else acc.withFindings,
        totalFindings :=
          if 0 < r.events.length then acc.totalFindings + r.events.length else acc.totalFindings,
        detectionResults := acc.detectionResults ++ [r] }
  | Except.error e =>
      { acc with
        failed := acc.failed + 1,
        detectionResults := acc.detectionResults ++
          [{ title := d.title, description := d.description, threat := d.threat,
             false_positives := d.false_positives, events := [], error := some e }] }

/-- runAllDetections (src/detectionRunner.js lines 11-73): filter the input to
descriptors whose queryType is the literal OIE tag, then run them one at a
time in input order, accumulating the summary. -/
def runAllDetections {Event : Type} (client : String → Except String (List Event))
    (detections : List Detection) : RunSummary Event :=
  let executable := detections.filter (fun d => d.queryType == "OIE")
  executable.foldl (detectionStep client)
    { total := executable.length, success := 0, failed := 0,
      withFindings := 0, totalFindings := 0, detectionResults := [] }

/-- The result record produced for one descriptor, success or failure: the
per-descriptor shape of the entries of detectionResults. -/
def detectionOutcome {Event : Type} (client : String → Except String (List Event))
    (d : Detection) : DetectionResult Event :=
  match client d.query with
  | Except.ok events =>
      { title := d.title, description := d.description, threat := d.threat,
        false_positives := d.false_positives, events := events, error := none }
  | Except.error e =>
      { title := d.title, description := d.description, threat := d.threat,
        false_positives := d.false_positives, events := [], error := some e }

/-- Whether the query of the descriptor succeeds under the client. -/
def querySucceeds {Event : Type} (client : String → Except String (List Event))
    (d : Detection) : Bool :=
  match client d.query with
  | Except.ok _ => true
  | Except.error _ => false

/-- The number of events matched for the descriptor (zero on failure). -/
def foundEvents {Event : Type} (client : String → Except String (List Event))
    (d : Detection) : Nat :=
  match client d.query with
  | Except.ok events => events.length
  | Except.error _ => 0

/-- executableOnly of the loader (filterExecutableDetections,
src/detectionLoader.js): keep descriptors tagged with the OIE dialect whose
query string is non-empty (truthy). -/
def filterExecutableDetections (detections : List Detection) : List Detection :=
  detections.filter (fun d => d.queryType == "OIE" && d.query != "")

/-- Client and descriptors of the C1 and C2 witnesses: three OIE rules, the
second of which fails during query execution. -/
def clientW1 : String → Except String (List Nat) :=
  fun q => if q == "bad" then Except.error "boom" else Except.ok [7]

/-- First witness rule (succeeds). -/
def dOk1 : Detection :=
  { title := "rule one", description := "a", threat := "t", false_positives := "fp",
    filename := "one.yml", sourceType := "detection", queryType := "OIE", query := "good1" }

/-- Second witness rule (its query fails). -/
def dBad : Detection :=
  { title := "rule two", description := "b", threat := "t2", false_positives := "fp2",
    filename := "two.yml", sourceType := "detection", queryType := "OIE", query := "bad" }

/-- Third witness rule (succeeds). -/
def dOk2 : Detection :=
  { title := "rule three", description := "c", threat := "t3", false_positives := "fp3",
    filename := "three.yml", sourceType := "hunt", queryType := "OIE", query := "good2" }

/-- The error record produced for the failing rule of the witness run. -/
def resultBad : DetectionResult Nat :=
  { title := dBad.title, description := dBad.description, threat := dBad.threat,
    false_positives := dBad.false_positives, events := [], error := some "boom" }

/-- A descriptor tagged OIE whose query string is empty: selected by the
runner but rejected by filterExecutableDetections. -/
def dEmptyQuery : Detection :=
  { title := "empty query rule", description := "", threat := "", false_positives := "",
    filename := "empty.yml", sourceType := "detection", queryType := "OIE", query := "" }

/-- Client of the C6 counterexample. -/
def clientW6 : String → Except String (List Nat) := fun _ => Except.ok []

/-- Descriptor of the C7 counterexample and witness. -/
def dRule7 : Detection :=
  { title := "rule seven", description := "", threat := "", false_positives := "",
    filename := "seven.yml", sourceType := "hunt", queryType := "OIE", query := "q7" }

/-- A client matching one event. -/
def clientA7 : String → Except String (List Nat) := fun _ => Except.ok [1]

/-- A client matching a different single event. -/
def clientB7 : String → Except String (List Nat) := fun _ => Except.ok [2]

/-- A client whose query throws. -/
def clientErr7 : String → Except String (List Nat) := fun _ => Except.error "down"

/-! ### Detection loader (src/detectionLoader.js, two-source variant) -/

/-- One configured remote collection: a listing endpoint, a raw-content base
address, and a category tag. -/
structure Source where
  name : String
  githubBaseUrl : String
  rawBaseUrl : String
  type : String
  deriving DecidableEq

/-- The two collections configured in the DetectionLoader constructor. -/
def defaultSources : List Source :=
  [{ name := "detections",
     githubBaseUrl := "https://api.github.com/repos/okta/customer-detections/contents/detections",
     rawBaseUrl := "https://raw.githubusercontent.com/okta/customer-detections/master/detections",
     type := "detection" },
   { name := "hunts",
     githubBaseUrl := "https://api.github.com/repos/okta/customer-detections/contents/hunts",
     rawBaseUrl := "https://raw.githubusercontent.com/okta/customer-detections/master/hunts",
     type := "hunt" }]

/-- A parsed YAML rule file, reduced to the fields the loader reads.
oieQuery is some q exactly when the document carries a truthy value q at the
path detection.okta_systemlog.OIE; otherwise the file is counted as skipped. -/
structure RawDetection where
  title : String
  description : String
  threat : String
  false_positives : String
  oieQuery : Option String
  deriving DecidableEq

/-- The environment of one loadDetections call: the configured collections,
the outcome of reading and JSON-parsing the cache file, and the outcomes of
the remote listing and per-file fetch-and-parse calls.  Filesystem directory
creation and the cache write are modelled as succeeding, so the outer
catch-and-fall-back-to-cache path (reachable only through filesystem
failures) is never entered. -/
structure LoaderEnv where
  sources : List Source
  readCache : Except String (List Detection)
  listFiles : Source → Except String (List String)
  fetchFile : Source → String → Except String RawDetection

/-- Processing of one listed file (src/detectionLoader.js lines 63-89 of the
two-source variant): fetch and parse it — a failure is caught, logged and
skipped — then include it as a descriptor only when it carries an OIE query,
tagging it with the filename, the collection category, the OIE dialect tag
and the trimmed query string. -/
def processFile (env : LoaderEnv) (source : Source) (name : String) : List Detection :=
  match env.fetchFile source name with
  | Except.error _ => []
  | Except.ok raw =>
      match raw.oieQuery with
      | some q =>
          [{ title := raw.title, description := raw.description, threat := raw.threat,
             false_positives := raw.false_positives, filename := name,
             sourceType := source.type, queryType := "OIE", query := q.trim }]
      | none => []

/-- Processing of one collection (src/detectionLoader.js lines 52-101): list
its files — a listing failure is caught and the collection contributes
nothing — filter the listing to .yml names, and process each file in order. -/
def processSource (env : LoaderEnv) (source : Source) : List Detection :=
  match env.listFiles source with
  | Except.error _ => []
  | Except.ok names =>
      ((names.filter (fun n => n.endsWith ".yml")).map (processFile env source)).flatten

/-- Number of HTTP requests one collection causes: one listing call, plus one
raw-content fetch per listed .yml file (a listing failure stops after the one
call). -/
def sourceCalls (env : LoaderEnv) (source : Source) : Nat :=
  match env.listFiles source with
  | Except.error _ => 1
  | Except.ok names => 1 + (names.filter (fun n => n.endsWith ".yml")).length

/-- Total number of remote HTTP requests of the remote-fetch phase. -/
def totalRemoteCalls (env : LoaderEnv) : Nat :=
  (env.sources.map (sourceCalls env)).sum

/-- The combined descriptor list of the remote-fetch phase, collections in
configured order. -/
def fetchAllSources (env : LoaderEnv) : List Detection :=
  (env.sources.map (processSource env)).flatten

/-- loadDetections (src/detectionLoader.js lines 26-129): with forceRefresh
false, first try the cache and return it on success; otherwise (forced
refresh, or cache read/parse failure) run the remote-fetch phase and write
its combined result to the cache file, replacing any prior content.  Returns
the descriptor list, the content written to the cache (none when nothing is
written), and the number of remote HTTP requests made. -/
def loadDetections (env : LoaderEnv) (forceRefresh : Bool) :
    List Detection × Option (List Detection) × Nat :=
  match forceRefresh, env.readCache with
  | false, Except.ok cached => (cached, none, 0)
  | _, _ => (fetchAllSources env, some (fetchAllSources env), totalRemoteCalls env)

/-- Cache-hit environment of the C4 witness. -/
def envW4 : LoaderEnv :=
  { sources := defaultSources,
    readCache := Except.ok [dOk1],
    listFiles := fun _ => Except.error "offline",
    fetchFile := fun _ _ => Except.error "offline" }

/-- First collection of the C9 witness (its listing fails). -/
def srcA : Source :=
  { name := "detections", githubBaseUrl := "ga", rawBaseUrl := "ra", type := "detection" }

/-- Second collection of the C9 witness (it lists one .yml file). -/
def srcB : Source :=
  { name := "hunts", githubBaseUrl := "gb", rawBaseUrl := "rb", type := "hunt" }

/-- The parsed rule file served for every fetch of the C9 witness. -/
def rawW : RawDetection :=
  { title := "remote rule", description := "d", threat := "t", false_positives := "f",
    oieQuery := some " eventType eq x " }

/-- Environment of the C9 witness: collection srcA fails to list, collection
srcB lists one rule file that parses to rawW. -/
def envW9 : LoaderEnv :=
  { sources := [srcA, srcB],
    readCache := Except.error "no cache",
    listFiles := fun s =>
      if s == srcA then Except.error "rate limited" else Except.ok ["h1.yml", "readme.md"],
    fetchFile := fun _ _ => Except.ok rawW }

/-! ### Theorems -/

/-- If the accumulated event count has reached the limit, the loop guard fails
and no further request is issued. -/
theorem querySystemLogLoop_stop {Event : Type} (limit : Int)
    (responses : List (Except AxiosError (Page Event))) (acc : List Event)
    (h : ¬ (acc.length : Int) < limit) :
    querySystemLogLoop limit responses acc = (Except.ok acc, 0, 0) := by
  cases responses <;> simp [querySystemLogLoop, h]

/-- One loop iteration on a successful response that carries a next link. -/
theorem querySystemLogLoop_step_next {Event : Type} (limit : Int) (p : Page Event)
    (rest : List (Except AxiosError (Page Event))) (acc : List Event)
    (hguard : (acc.length : Int) < limit) (hnext : p.hasNext = true) :
    querySystemLogLoop limit (Except.ok p :: rest) acc =
      ((querySystemLogLoop limit rest (acc ++ p.data)).1,
       (querySystemLogLoop limit rest (acc ++ p.data)).2.1 + 1,
       (querySystemLogLoop limit rest (acc ++ p.data)).2.2 + 1) := by
  simp [querySystemLogLoop, hguard, hnext]

/-- One loop iteration on a successful response with no next link. -/
theorem querySystemLogLoop_step_last {Event : Type} (limit : Int) (p : Page Event)
    (rest : List (Except AxiosError (Page Event))) (acc : List Event)
    (hguard : (acc.length : Int) < limit) (hnext : p.hasNext = false) :
    querySystemLogLoop limit (Except.ok p :: rest) acc =
      (Except.ok (acc ++ p.data), 1, 1) := by
  simp [querySystemLogLoop, hguard, hnext]

/-- One loop iteration on a request that throws. -/
theorem querySystemLogLoop_step_err {Event : Type} (limit : Int) (e : AxiosError)
    (rest : List (Except AxiosError (Page Event))) (acc : List Event)
    (hguard : (acc.length : Int) < limit) :
    querySystemLogLoop limit (Except.error e :: rest) acc = (Except.error e, 1, 0) := by
  simp [querySystemLogLoop, hguard]

/-- Along a well-formed page chain every request succeeds, and the accumulated
result agrees with the concatenation of all page bodies up to the limit. -/
theorem querySystemLogLoop_chain_take {Event : Type} (limit : Int) (pages : List (Page Event)) :
    ∀ acc : List Event, pageChain pages = true →
      ∃ res reqs sleeps,
        querySystemLogLoop limit (pages.map Except.ok) acc = (Except.ok res, reqs, sleeps) ∧
        res.take limit.toNat = (acc ++ (pages.map Page.data).flatten).take limit.toNat := by
  induction pages with
  | nil => intro acc h; simp [pageChain] at h
  | cons p rest ih =>
    intro acc hchain
    by_cases hguard : (acc.length : Int) < limit
    · cases rest with
      | nil =>
        have hnext : p.hasNext = false := by
          simpa [pageChain] using hchain
        refine ⟨acc ++ p.data, 1, 1, ?_, ?_⟩
        · simp [querySystemLogLoop, hguard, hnext]
        · simp
      | cons q rest2 =>
        have hnext : p.hasNext = true := by
          have := hchain
          simp [pageChain] at this
          exact this.1
        have hchain2 : pageChain (q :: rest2) = true := by
          have := hchain
          simp [pageChain] at this
          exact this.2
        obtain ⟨res, reqs, sleeps, heq, htake⟩ := ih (acc ++ p.data) hchain2
        refine ⟨res, reqs + 1, sleeps + 1, ?_, ?_⟩
        · rw [List.map_cons, querySystemLogLoop_step_next limit p _ acc hguard hnext, heq]
        · rw [htake]
          simp [List.append_assoc]
    · refine ⟨acc, 0, 0, querySystemLogLoop_stop limit _ acc hguard, ?_⟩
      have hle : limit.toNat ≤ acc.length := by
        rw [Int.toNat_le]
        omega
      rw [List.take_append_of_le_length hle]

/-- Along a well-formed page chain whose total event count stays strictly
below the limit, the loop consumes every page, issuing one request and one
pacing sleep per page. -/
theorem querySystemLogLoop_chain_all {Event : Type} (limit : Int) (pages : List (Page Event)) :
    ∀ acc : List Event, pageChain pages = true →
      (((acc ++ (pages.map Page.data).flatten).length : Int) < limit) →
      querySystemLogLoop limit (pages.map Except.ok) acc =
        (Except.ok (acc ++ (pages.map Page.data).flatten), pages.length, pages.length) := by
  induction pages with
  | nil => intro acc h _; simp [pageChain] at h
  | cons p rest ih =>
    intro acc hchain hlen
    have hacc : acc.length ≤ (acc ++ ((p :: rest).map Page.data).flatten).length := by
      simp
    have hguard : (acc.length : Int) < limit := by
      simp only [List.length_append] at hlen ⊢
      omega
    cases rest with
    | nil =>
      have hnext : p.hasNext = false := by
        simpa [pageChain] using hchain
      simp [querySystemLogLoop, hguard, hnext]
    | cons q rest2 =>
      have hnext : p.hasNext = true := by
        have := hchain
        simp [pageChain] at this
        exact this.1
      have hchain2 : pageChain (q :: rest2) = true := by
        have := hchain
        simp [pageChain] at this
        exact this.2
      have hlen2 :
          ((((acc ++ p.data) ++ ((q :: rest2).map Page.data).flatten).length : Int) < limit) := by
        simp only [List.length_append, List.map_cons, List.flatten_cons] at hlen ⊢
        omega
      have hrec := ih (acc ++ p.data) hchain2 hlen2
      rw [List.map_cons, querySystemLogLoop_step_next limit p _ acc hguard hnext, hrec]
      simp [List.append_assoc]

/-- The fixed network-unreachable message differs from every API error message. -/
theorem network_msg_ne_api (x : String) :
    ("Network error: Unable to reach Okta API" : String) ≠ "Okta API Error: " ++ x := by
  intro h
  have h2 : ("Network error: Unable to reach Okta API" : String).data.head? =
      ("Okta API Error: " ++ x).data.head? := by rw [h]
  have hlit : ("Okta API Error: " : String).data = 'O' :: ("kta API Error: " : String).data := by
    decide
  have hN : ("Network error: Unable to reach Okta API" : String).data.head? = some 'N' := by
    decide
  rw [hN, String.data_append, hlit] at h2
  simp at h2

/-- C3: for a chain of N pages where every page but the last carries a
rel="next" link, querySystemLog returns the concatenation of the page bodies
in original order, with no re-sorting, truncated to the first maxResults
events; when the pages collectively carry at least maxResults events the
returned sequence has length exactly maxResults; and once the accumulated
count reaches maxResults the loop stops early (here: a first page that alone
reaches maxResults ends the run after one request even though a next link is
present). -/
theorem C3_pagination_truncation (Event : Type) (limit : Int) (pages : List (Page Event))
    (hchain : pageChain pages = true) :
    (querySystemLog limit (pages.map Except.ok)).1 =
        Except.ok (((pages.map Page.data).flatten).take limit.toNat) ∧
    (limit.toNat ≤ ((pages.map Page.data).flatten).length →
        ∀ res, (querySystemLog limit (pages.map Except.ok)).1 = Except.ok res →
          res.length = limit.toNat) ∧
    (∀ p rest, pages = p :: rest → 0 < limit → limit ≤ (p.data.length : Int) →
        (querySystemLog limit (pages.map Except.ok)).2.1 = 1) := by
  obtain ⟨res, reqs, sleeps, heq, htake⟩ := querySystemLogLoop_chain_take limit pages [] hchain
  have hmain : (querySystemLog limit (pages.map Except.ok)).1 =
      Except.ok (((pages.map Page.data).flatten).take limit.toNat) := by
    unfold querySystemLog
    rw [heq]
    simpa using htake
  refine ⟨hmain, ?_, ?_⟩
  · intro hle res2 hres2
    rw [hmain] at hres2
    have hres3 : res2 = ((pages.map Page.data).flatten).take limit.toNat :=
      (Except.ok.inj hres2).symm
    rw [hres3, List.length_take]
    omega
  · intro p rest hp hpos hple
    subst hp
    have hguard0 : ((([] : List Event).length : Int) < limit) := by simpa using hpos
    have hstop : ¬ (((([] : List Event) ++ p.data).length : Int) < limit) := by
      simp only [List.nil_append, Int.not_lt]
      exact hple
    unfold querySystemLog
    rw [List.map_cons]
    by_cases hnext : p.hasNext
    · rw [querySystemLogLoop_step_next limit p _ [] hguard0 hnext,
        querySystemLogLoop_stop limit _ _ hstop]
    · rw [querySystemLogLoop_step_last limit p _ [] hguard0 (by simpa using hnext)]

/-- C3 witness: two pages of two events each with limit 3 yield the first
three events of the concatenation. -/
theorem C3_witness :
    pageChain pagesW3 = true ∧
    (querySystemLog 3 (pagesW3.map Except.ok)).1 =
      Except.ok (((pagesW3.map Page.data).flatten).take (3 : Int).toNat) :=
  ⟨by decide, (C3_pagination_truncation Nat 3 pagesW3 (by decide)).1⟩

/-- C5 counterexample: for a single page carrying no next link (N = 1) the
code awaits the pacing delay once, after the final (and only) request,
whereas the claim requires exactly N - 1 = 0 delays and none after the final
page. -/
theorem C5_counterexample :
    pageChain [({ data := [5], hasNext := false } : Page Nat)] = true ∧
    (querySystemLog 10 [Except.ok ({ data := [5], hasNext := false } : Page Nat)]).2.1 = 1 ∧
    (querySystemLog 10 [Except.ok ({ data := [5], hasNext := false } : Page Nat)]).2.2 = 1 ∧
    (1 : Nat) ≠ 1 - 1 := by
  decide

/-- C5 (amended): for a chain of N pages accumulating fewer than maxResults
events, querySystemLog makes exactly N HTTP requests and awaits the fixed
pacing delay exactly N times: once after each request, including one after
the final page (equivalently, once before each pagination request after the
first plus one trailing delay); no delay precedes the initial request. -/
theorem C5_requests_and_delays (Event : Type) (limit : Int) (pages : List (Page Event))
    (hchain : pageChain pages = true)
    (hlen : ((((pages.map Page.data).flatten).length : Int) < limit)) :
    (querySystemLog limit (pages.map Except.ok)).2.1 = pages.length ∧
    (querySystemLog limit (pages.map Except.ok)).2.2 = pages.length := by
  have h := querySystemLogLoop_chain_all limit pages [] hchain (by simpa using hlen)
  unfold querySystemLog
  rw [h]
  exact ⟨rfl, rfl⟩

/-- C5 witness: two pages below the limit give two requests and two delays. -/
theorem C5_witness :
    pageChain pagesW5 = true ∧
    ((((pagesW5.map Page.data).flatten).length : Int) < 10) ∧
    (querySystemLog 10 (pagesW5.map Except.ok)).2.1 = pagesW5.length ∧
    (querySystemLog 10 (pagesW5.map Except.ok)).2.2 = pagesW5.length :=
  ⟨by decide, by decide,
    (C5_requests_and_delays Nat 10 pagesW5 (by decide) (by decide)).1,
    (C5_requests_and_delays Nat 10 pagesW5 (by decide) (by decide)).2⟩

/-- C8: a non-success HTTP response becomes an error whose message is the
concatenation of the status code and the errorSummary of the API body (so it
contains both), with the HTTP statusText as fallback when the summary is
absent; a transport failure with no response becomes the distinct fixed
network-unreachable error; any other failure is rethrown unchanged; and a
request failure inside querySystemLog surfaces as exactly the normalized
error. -/
theorem C8_error_normalization :
    (∀ status summ txt, normalizeError (AxiosError.response status (some summ) txt) =
        ThrownError.wrapped ("Okta API Error: " ++ toString status ++ " - " ++ summ)) ∧
    (∀ status txt, normalizeError (AxiosError.response status none txt) =
        ThrownError.wrapped ("Okta API Error: " ++ toString status ++ " - " ++ txt)) ∧
    normalizeError AxiosError.request =
        ThrownError.wrapped "Network error: Unable to reach Okta API" ∧
    (∀ status summ txt,
        normalizeError AxiosError.request ≠ normalizeError (AxiosError.response status summ txt)) ∧
    (∀ msg, normalizeError (AxiosError.other msg) = ThrownError.original (AxiosError.other msg)) ∧
    (∀ (Event : Type) (limit : Int) (e : AxiosError)
        (rest : List (Except AxiosError (Page Event))), 0 < limit →
        querySystemLog limit (Except.error e :: rest) =
          (Except.error (normalizeError e), 1, 0)) := by
  refine ⟨fun _ _ _ => rfl, fun _ _ => rfl, rfl, ?_, fun _ => rfl, ?_⟩
  · intro status summ txt h
    have h2 := ThrownError.wrapped.inj h
    rw [String.append_assoc, String.append_assoc] at h2
    exact network_msg_ne_api _ h2
  · intro Event limit e rest hpos
    have hguard0 : ((([] : List Event).length : Int) < limit) := by simpa using hpos
    unfold querySystemLog
    rw [querySystemLogLoop_step_err limit e _ [] hguard0]

/-- C8 witness: a 401 with an errorSummary, as the first response, makes
querySystemLog throw the normalized API error after one request. -/
theorem C8_witness :
    (0 : Int) < 5 ∧
    querySystemLog 5
        ([Except.error (AxiosError.response 401 (some "Invalid token") "Unauthorized")] :
          List (Except AxiosError (Page Nat))) =
      (Except.error (normalizeError (AxiosError.response 401 (some "Invalid token") "Unauthorized")),
        1, 0) :=
  ⟨by decide, C8_error_normalization.2.2.2.2.2 Nat 5 _ [] (by decide)⟩

/-- C10: with a non-positive limit the loop guard fails before the first
iteration, so querySystemLog issues zero HTTP requests, awaits zero delays,
and returns the empty event sequence. -/
theorem C10_zero_limit (Event : Type) (limit : Int)
    (responses : List (Except AxiosError (Page Event))) (h : limit ≤ 0) :
    querySystemLog limit responses = (Except.ok [], 0, 0) := by
  have h0 : ¬ ((([] : List Event).length : Int) < limit) := by
    simp only [List.length_nil, Nat.cast_zero, Int.not_lt]
    exact h
  unfold querySystemLog
  rw [querySystemLogLoop_stop limit responses [] h0]
  simp

/-- C10 witness: limit 0 with a page available yields no request at all. -/
theorem C10_witness :
    (0 : Int) ≤ 0 ∧
    querySystemLog 0 [Except.ok ({ data := [1], hasNext := true } : Page Nat)] =
      (Except.ok [], 0, 0) :=
  ⟨by decide, C10_zero_limit Nat 0 _ (by decide)⟩

/-- Folding the per-rule step from any accumulator appends one result per
descriptor in input order and adds the per-descriptor counts. -/
theorem detectionStep_foldl {Event : Type} (client : String → Except String (List Event))
    (l : List Detection) :
    ∀ acc : RunSummary Event,
      l.foldl (detectionStep client) acc =
        { total := acc.total,
          success := acc.success + l.countP (querySucceeds client),
          failed := acc.failed + l.countP (fun d => !querySucceeds client d),
          withFindings := acc.withFindings + l.countP (fun d => decide (0 < foundEvents client d)),
          totalFindings := acc.totalFindings + (l.map (foundEvents client)).sum,
          detectionResults := acc.detectionResults ++ l.map (detectionOutcome client) } := by
  induction l with
  | nil => intro acc; simp
  | cons d rest ih =>
    intro acc
    rw [List.foldl_cons, ih]
    cases hq : client d.query with
    | ok events =>
      by_cases hev : 0 < events.length
      · simp [detectionStep, runDetectionWithEvents, hq, hev, detectionOutcome, querySucceeds,
          foundEvents, List.countP_cons, RunSummary.mk.injEq,
          Nat.add_assoc, Nat.add_comm, Nat.add_left_comm]
      · have hlen : events.length = 0 := by omega
        simp [detectionStep, runDetectionWithEvents, hq, hev, hlen, detectionOutcome,
          querySucceeds, foundEvents, List.countP_cons, RunSummary.mk.injEq,
          Nat.add_assoc, Nat.add_comm, Nat.add_left_comm]
    | error e =>
      simp [detectionStep, runDetectionWithEvents, hq, detectionOutcome, querySucceeds,
        foundEvents, List.countP_cons, RunSummary.mk.injEq,
        Nat.add_assoc, Nat.add_comm, Nat.add_left_comm]

/-- Full characterization of runAllDetections: every field of the summary as
a function of the descriptors the runner selects. -/
theorem runAllDetections_eq {Event : Type} (client : String → Except String (List Event))
    (detections : List Detection) :
    runAllDetections client detections =
      { total := (detections.filter (fun d => d.queryType == "OIE")).length,
        success :=
          (detections.filter (fun d => d.queryType == "OIE")).countP (querySucceeds client),
        failed := (detections.filter (fun d => d.queryType == "OIE")).countP
          (fun d => !querySucceeds client d),
        withFindings := (detections.filter (fun d => d.queryType == "OIE")).countP
          (fun d => decide (0 < foundEvents client d)),
        totalFindings := ((detections.filter (fun d => d.queryType == "OIE")).map
          (foundEvents client)).sum,
        detectionResults := (detections.filter (fun d => d.queryType == "OIE")).map
          (detectionOutcome client) } := by
  unfold runAllDetections
  rw [detectionStep_foldl]
  simp

/-- In any list, the elements satisfying a predicate and those refuting it
together count the whole list. -/
theorem countP_not_add {α : Type} (p : α → Bool) (l : List α) :
    l.countP p + l.countP (fun a => !p a) = l.length := by
  induction l with
  | nil => simp
  | cons a l ih => cases ha : p a <;> simp [List.countP_cons, ha] <;> omega

/-- C1: a query error for one descriptor is caught and recorded as the result
of that descriptor, with the error message set and an empty events list; it
counts toward failed; and every selected descriptor, before or after a
failing one, still receives exactly one result (the run never aborts). -/
theorem C1_per_rule_isolation (Event : Type) (client : String → Except String (List Event))
    (detections : List Detection) :
    (runAllDetections client detections).detectionResults.length =
        (detections.filter (fun d => d.queryType == "OIE")).length ∧
    (runAllDetections client detections).failed =
        (detections.filter (fun d => d.queryType == "OIE")).countP
          (fun d => !querySucceeds client d) ∧
    (∀ (i : Nat) (d : Detection) (e : String),
        (detections.filter (fun d => d.queryType == "OIE"))[i]? = some d →
        client d.query = Except.error e →
        (runAllDetections client detections).detectionResults[i]? =
          some { title := d.title, description := d.description, threat := d.threat,
                 false_positives := d.false_positives, events := [], error := some e }) := by
  rw [runAllDetections_eq]
  refine ⟨by simp, rfl, ?_⟩
  intro i d e hi hq
  simp only [List.getElem?_map, hi, Option.map_some']
  simp [detectionOutcome, hq]

/-- C1 witness: with three rules where the second throws, position 1 of
detectionResults carries the error record with empty events. -/
theorem C1_witness :
    (List.filter (fun d => d.queryType == "OIE") [dOk1, dBad, dOk2])[1]? = some dBad ∧
    clientW1 dBad.query = Except.error "boom" ∧
    (runAllDetections clientW1 [dOk1, dBad, dOk2]).detectionResults[1]? =
      some { title := dBad.title, description := dBad.description, threat := dBad.threat,
             false_positives := dBad.false_positives, events := ([] : List Nat),
             error := some "boom" } :=
  ⟨by decide, rfl,
    (C1_per_rule_isolation Nat clientW1 [dOk1, dBad, dOk2]).2.2 1 dBad "boom"
      (by decide) rfl⟩

/-- C2: the summary satisfies success + failed = total, total counts the
descriptors the runner selects, withFindings counts exactly the results with
a non-empty events list, totalFindings sums the events lengths of the
results, a result carrying an error has an empty events list (so it adds to
neither findings counter), and detectionResults has exactly one entry per
selected descriptor in input order. -/
theorem C2_aggregation_invariants (Event : Type) (client : String → Except String (List Event))
    (detections : List Detection) :
    (runAllDetections client detections).success + (runAllDetections client detections).failed =
        (runAllDetections client detections).total ∧
    (runAllDetections client detections).total =
        (detections.filter (fun d => d.queryType == "OIE")).length ∧
    (runAllDetections client detections).withFindings =
        (runAllDetections client detections).detectionResults.countP
          (fun r => !r.events.isEmpty) ∧
    (runAllDetections client detections).totalFindings =
        ((runAllDetections client detections).detectionResults.map
          (fun r => r.events.length)).sum ∧
    (∀ r ∈ (runAllDetections client detections).detectionResults,
        r.error.isSome → r.events = []) ∧
    (runAllDetections client detections).detectionResults =
        (detections.filter (fun d => d.queryType == "OIE")).map (detectionOutcome client) := by
  rw [runAllDetections_eq]
  refine ⟨countP_not_add _ _, rfl, ?_, ?_, ?_, rfl⟩
  · rw [List.countP_map]
    apply List.countP_congr
    intro d _
    cases hq : client d.query with
    | ok events => cases events <;> simp [detectionOutcome, foundEvents, hq, Function.comp]
    | error e => simp [detectionOutcome, foundEvents, hq, Function.comp]
  · rw [List.map_map]
    refine congrArg List.sum ?_
    apply List.map_congr_left
    intro d _
    cases hq : client d.query <;> simp [detectionOutcome, foundEvents, hq, Function.comp]
  · intro r hr herr
    obtain ⟨d, _, rfl⟩ := List.mem_map.mp hr
    cases hq : client d.query with
    | ok events => simp [detectionOutcome, hq] at herr
    | error e => simp [detectionOutcome, hq]

/-- C2 witness: in the three-rule run the errored result is present, carries
an error, and has an empty events list. -/
theorem C2_witness :
    resultBad ∈ (runAllDetections clientW1 [dOk1, dBad, dOk2]).detectionResults ∧
    resultBad.error.isSome = true ∧
    resultBad.events = [] :=
  ⟨by decide, by decide,
    (C2_aggregation_invariants Nat clientW1 [dOk1, dBad, dOk2]).2.2.2.2.1 resultBad
      (by decide) (by decide)⟩

/-- C6 counterexample: an OIE-tagged descriptor with an empty query is
attempted and counted by runAllDetections (total = 1, one result), although
the executable filter of the loader excludes it (length 0) — so the runner
does not select via filterExecutableDetections and does not require a
non-empty query. -/
theorem C6_counterexample :
    (runAllDetections clientW6 [dEmptyQuery]).total = 1 ∧
    (runAllDetections clientW6 [dEmptyQuery]).detectionResults.length = 1 ∧
    (filterExecutableDetections [dEmptyQuery]).length = 0 := by
  decide

/-- C6 (amended): runAllDetections attempts and counts exactly the
descriptors whose dialect tag equals OIE, using its own filter that does not
inspect the query string; descriptors with any other tag are never attempted
or counted; filterExecutableDetections additionally requires a non-empty
query, so it selects a subset of what the runner selects. -/
theorem C6_runner_filter (Event : Type) (client : String → Except String (List Event))
    (detections : List Detection) :
    (runAllDetections client detections).total =
        (detections.filter (fun d => d.queryType == "OIE")).length ∧
    (runAllDetections client detections).detectionResults =
        (detections.filter (fun d => d.queryType == "OIE")).map (detectionOutcome client) ∧
    filterExecutableDetections detections =
        (detections.filter (fun d => d.queryType == "OIE")).filter
          (fun d => d.query != "") := by
  rw [runAllDetections_eq]
  refine ⟨rfl, rfl, ?_⟩
  rw [List.filter_filter]
  apply List.filter_congr
  intro d _
  exact (Bool.and_comm _ _).symm

/-- C7 counterexample: two runs whose matched-event sequences differ give
identical runDetection return values, so the single-rule path does not return
the RuleResult (descriptor fields plus the matched events sequence): it
returns only the event count. -/
theorem C7_counterexample :
    runDetection clientA7 dRule7 = runDetection clientB7 dRule7 ∧
    runDetectionWithEvents clientA7 dRule7 ≠ runDetectionWithEvents clientB7 dRule7 :=
  ⟨rfl, fun h =>
    absurd
      (congrArg
        (fun x => match x with
          | Except.ok r => r.events
          | Except.error _ => ([] : List Nat)) h)
      (by decide)⟩

/-- C7 (amended): the single-rule path performs no aggregation; it propagates
a query error to the caller unchanged, and on success returns the event count
of the one result (result.events.length) rather than the result record. -/
theorem C7_run_one (Event : Type) (client : String → Except String (List Event))
    (d : Detection) :
    runDetection client d = (runDetectionWithEvents client d).map (fun r => r.events.length) ∧
    (∀ e : String, client d.query = Except.error e → runDetection client d = Except.error e) ∧
    (∀ r : DetectionResult Event, runDetectionWithEvents client d = Except.ok r →
        runDetection client d = Except.ok r.events.length) := by
  refine ⟨?_, ?_, ?_⟩
  · cases hq : client d.query <;> simp [runDetection, runDetectionWithEvents, hq, Except.map]
  · intro e hq
    simp [runDetection, runDetectionWithEvents, hq]
  · intro r hr
    simp [runDetection, hr]

/-- C7 witness: a failing query propagates out of runDetection. -/
theorem C7_witness :
    clientErr7 dRule7.query = Except.error "down" ∧
    runDetection clientErr7 dRule7 = Except.error "down" :=
  ⟨rfl, (C7_run_one Nat clientErr7 dRule7).2.1 "down" rfl⟩

/-- C4: with forceRefresh false and a readable, deserializable cache, the
load returns exactly the cached descriptors and makes zero remote calls (and
writes nothing); when the cache read or parse fails, the call falls through
to exactly the remote-fetch path a forced refresh takes. -/
theorem C4_cache_fast_path (env : LoaderEnv) :
    (∀ cached : List Detection, env.readCache = Except.ok cached →
        loadDetections env false = (cached, none, 0)) ∧
    (∀ err : String, env.readCache = Except.error err →
        loadDetections env false = loadDetections env true) := by
  constructor
  · intro cached hc
    simp [loadDetections, hc]
  · intro err hc
    simp [loadDetections, hc]

/-- C4 witness: a valid one-descriptor cache is returned as is, with zero
remote calls and no cache write. -/
theorem C4_witness :
    envW4.readCache = Except.ok [dOk1] ∧
    loadDetections envW4 false = ([dOk1], none, 0) :=
  ⟨rfl, (C4_cache_fast_path envW4).1 [dOk1] rfl⟩

/-- C9: the remote-fetch phase returns the concatenation of the
per-collection contributions and writes exactly that combined list to the
cache (replacing any prior content, independently of what the cache held); a
collection whose listing call throws contributes the empty list without
aborting the call; and when every listing fails the returned and written set
is empty. -/
theorem C9_collection_isolation (env : LoaderEnv) :
    loadDetections env true =
      ((env.sources.map (processSource env)).flatten,
        some ((env.sources.map (processSource env)).flatten), totalRemoteCalls env) ∧
    (∀ (s : Source) (err : String), env.listFiles s = Except.error err →
        processSource env s = []) ∧
    ((∀ s ∈ env.sources, ∃ err : String, env.listFiles s = Except.error err) →
        loadDetections env true = ([], some [], totalRemoteCalls env)) ∧
    (∀ r : Except String (List Detection),
        loadDetections { env with readCache := r } true = loadDetections env true) := by
  refine ⟨rfl, ?_, ?_, fun r => rfl⟩
  · intro s err h
    simp [processSource, h]
  · intro hall
    have hnil : fetchAllSources env = [] := by
      unfold fetchAllSources
      rw [List.flatten_eq_nil_iff]
      intro l hl
      obtain ⟨s, hs, rfl⟩ := List.mem_map.mp hl
      obtain ⟨err, herr⟩ := hall s hs
      simp [processSource, herr]
    show (fetchAllSources env, some (fetchAllSources env), totalRemoteCalls env) =
      ([], some [], totalRemoteCalls env)
    rw [hnil]

/-- C9 witness: the failing collection contributes zero descriptors. -/
theorem C9_witness :
    envW9.listFiles srcA = Except.error "rate limited" ∧
    processSource envW9 srcA = [] :=
  ⟨rfl, (C9_collection_isolation envW9).2.1 srcA "rate limited" rfl⟩
